import Mathlib

/-!
Verification development for THE UNREAD ARCHIVE, a small content site:
an express server (`server.js`) with session-based authentication and
CRUD over three mongoose collections (User, Book, Article), plus a
client-side list-filtering component (`oop.js` / `bundle.js`).

The JavaScript sources are shallowly embedded:

* Strings are Lean `String`s; the JavaScript string operations used by
  the code (`toLowerCase`, `trim`, `slice(0, n)`, `includes`) are
  defined below at the level of the underlying character list, so that
  every definition evaluates inside the kernel.
* A missing form field and an empty form field are both modelled as
  `""`: every guard the code runs on these values is a JavaScript
  truthiness test (`!x`, `x || d`), which identifies `undefined` and
  `""`.
* The mongoose collections are lists of records; `createdAt` values
  are natural numbers; document ids are natural numbers.
* Each route handler is a pure function from the relevant store (and,
  where the request carries one, the session) to the new store and an
  HTTP-level `Response`.
-/

namespace UnreadArchive

/-! ## JavaScript string primitives, at the character-list level -/

/-- JavaScript `s.toLowerCase()`, modelled characterwise. -/
def strToLower (s : String) : String := ⟨s.data.map Char.toLower⟩

/-- JavaScript `s.trim()`: drop leading and trailing whitespace. -/
def strTrim (s : String) : String :=
  ⟨((s.data.dropWhile Char.isWhitespace).reverse.dropWhile Char.isWhitespace).reverse⟩

/-- JavaScript `s.slice(0, n)`: the first `n` characters of `s`. -/
def strSlice (s : String) (n : Nat) : String := ⟨s.data.take n⟩

/-- JavaScript `s.includes(sub)`: `sub` occurs contiguously in `s`. -/
def strIncludes (s sub : String) : Bool := decide (sub.data <:+: s.data)

/-- JavaScript `s || d` on strings: the default `d` replaces a falsy
(missing or empty) value. -/
def jsOr (s d : String) : String := if s = "" then d else s

/-! ## Client-side filter component (`oop.js` / `bundle.js`) -/

/-- An item handled by `ArchiveManager.filterItems`: the four fields the
filter reads (absent fields are `""`, as `item.title || ''` would give). -/
structure Item where
  title : String
  excerpt : String
  author : String
  tag : String
deriving DecidableEq

/-- The filter predicate of `ArchiveManager.filterItems`, body of the
`items.filter(...)` callback: an active category other than `'All'`
requires a truthy tag containing the category case-insensitively;
a nonempty trimmed query must occur case-insensitively in the
space-separated interpolation of title, excerpt and author. -/
def itemMatches (query activeCategory : String) (item : Item) : Bool :=
  let q := strToLower (strTrim query)
  let catOk : Bool :=
    if activeCategory = "" ∨ activeCategory = "All" then true
    else if item.tag = "" then false
    else strIncludes (strToLower item.tag) (strToLower activeCategory)
  if catOk = false then false
  else if q = "" then true
  else strIncludes (strToLower (item.title ++ " " ++ item.excerpt ++ " " ++ item.author)) q

/-- `ArchiveManager.filterItems(items)`, with the manager state
`this.query` and `this.activeCategory` passed explicitly. -/
def filterItems (query activeCategory : String) (items : List Item) : List Item :=
  items.filter (itemMatches query activeCategory)

/-- The filter predicate as the specification words it: category
case-insensitive substring of the tag when the category is not `'All'`,
and query case-insensitive substring of the plain (separator-free)
concatenation of title, excerpt and author when the trimmed query is
nonempty. Stated for comparison with `itemMatches`. -/
def specItemMatchesPlain (query activeCategory : String) (item : Item) : Bool :=
  (if activeCategory = "All" then true
   else strIncludes (strToLower item.tag) (strToLower activeCategory))
  && (if strTrim query = "" then true
      else strIncludes (strToLower (item.title ++ item.excerpt ++ item.author))
        (strToLower (strTrim query)))

/-- The same predicate with the one amendment the code forces: the
query is matched against the space-separated concatenation
`title ++ " " ++ excerpt ++ " " ++ author`, as the template literal in
the source builds it. -/
def specItemMatchesAmended (query activeCategory : String) (item : Item) : Bool :=
  (if activeCategory = "All" then true
   else strIncludes (strToLower item.tag) (strToLower activeCategory))
  && (if strTrim query = "" then true
      else strIncludes (strToLower (item.title ++ " " ++ item.excerpt ++ " " ++ item.author))
        (strToLower (strTrim query)))

/-! ### Supporting lemmas on the string primitives -/

theorem str_data_eq_nil {s : String} (h : s.data = []) : s = "" := by
  cases s with
  | mk d => cases h; rfl

theorem strToLower_eq_empty_iff (s : String) : strToLower s = "" ↔ s = "" := by
  constructor
  · intro h
    have hd := congrArg String.data h
    simp only [strToLower] at hd
    exact str_data_eq_nil (List.map_eq_nil_iff.mp hd)
  · intro h
    subst h
    rfl

@[simp]
theorem strToLower_empty : strToLower "" = "" := rfl

@[simp]
theorem strIncludes_empty (s : String) : strIncludes s "" = true :=
  decide_eq_true List.nil_infix

theorem strIncludes_of_empty_left {sub : String} (h : sub ≠ "") :
    strIncludes "" sub = false := by
  refine decide_eq_false ?_
  rw [show ("" : String).data = [] from rfl, List.infix_nil]
  intro hd
  exact h (str_data_eq_nil hd)

/-- Pointwise agreement of the source predicate and the amended
specification predicate. -/
theorem itemMatches_eq_specAmended (query activeCategory : String) (item : Item) :
    itemMatches query activeCategory item = specItemMatchesAmended query activeCategory item := by
  unfold itemMatches specItemMatchesAmended
  by_cases hq : strTrim query = ""
  · have hq2 : strToLower (strTrim query) = "" := (strToLower_eq_empty_iff _).mpr hq
    by_cases hAll : activeCategory = "All"
    · simp [hAll, hq, hq2]
    · by_cases hEmp : activeCategory = ""
      · have : strToLower activeCategory = "" := (strToLower_eq_empty_iff _).mpr hEmp
        simp [hAll, hEmp, hq, hq2, this, strIncludes_empty]
      · by_cases htag : item.tag = ""
        · have hlc : strToLower activeCategory ≠ "" := by
            intro hx
            exact hEmp ((strToLower_eq_empty_iff _).mp hx)
          have htl : strToLower item.tag = "" := by
            rw [htag]; rfl
          simp [hAll, hEmp, htag, hq, hq2, htl, strIncludes_of_empty_left hlc]
        · simp only [hAll, hEmp, htag, hq, hq2, or_self, if_false, if_true]
          by_cases hinc :
              strIncludes (strToLower item.tag) (strToLower activeCategory) = true
          · simp [hinc]
          · simp [Bool.not_eq_true] at hinc
            simp [hinc]
  · have hq2 : strToLower (strTrim query) ≠ "" := by
      intro hx
      exact hq ((strToLower_eq_empty_iff _).mp hx)
    by_cases hAll : activeCategory = "All"
    · simp [hAll, hq, hq2]
    · by_cases hEmp : activeCategory = ""
      · have : strToLower activeCategory = "" := (strToLower_eq_empty_iff _).mpr hEmp
        simp [hAll, hEmp, hq, hq2, this, strIncludes_empty]
      · by_cases htag : item.tag = ""
        · have hlc : strToLower activeCategory ≠ "" := by
            intro hx
            exact hEmp ((strToLower_eq_empty_iff _).mp hx)
          have htl : strToLower item.tag = "" := by
            rw [htag]; rfl
          simp [hAll, hEmp, htag, hq, hq2, htl, strIncludes_of_empty_left hlc]
        · simp only [hAll, hEmp, htag, hq, hq2, or_self, if_false, if_true]
          by_cases hinc :
              strIncludes (strToLower item.tag) (strToLower activeCategory) = true
          · simp [hinc]
          · simp [Bool.not_eq_true] at hinc
            simp [hinc]

/-- Claim C6, counterexample: the claim matches the query against the
plain concatenation of title, excerpt and author, but the source
interpolates the three fields with spaces. For the item
`{title: "a", excerpt: "b", author: "", tag: ""}` and query `"ab"` the
plain concatenation `"ab"` contains the query, so the claim keeps the
item, while `filterItems` drops it (`"a b "` does not contain `"ab"`). -/
theorem filterItems_plain_concat_cex :
    filterItems "ab" "All" [⟨"a", "b", "", ""⟩] = []
    ∧ List.filter (specItemMatchesPlain "ab" "All") [⟨"a", "b", "", ""⟩]
      = [⟨"a", "b", "", ""⟩] := by
  exact ⟨by decide, by decide⟩

/-- Claim C6, amended: `filterItems` returns exactly the subsequence of
items that (a) when the active category is not `'All'` have a tag
containing the category as a case-insensitive substring, and (b) when
the trimmed query is nonempty have the space-separated concatenation of
title, excerpt and author containing the query as a case-insensitive
substring; in particular, on the items Zen/Culture and Food Diary/Food,
the `"Food"` category state yields exactly the second item and the query
`"ZeN"` yields exactly the first. -/
theorem filterItems_matches_spec :
    (∀ (query activeCategory : String) (items : List Item),
        filterItems query activeCategory items
          = items.filter (specItemMatchesAmended query activeCategory))
    ∧ filterItems "Food" "Food"
        [⟨"Zen", "", "", "Culture"⟩, ⟨"Food Diary", "", "", "Food"⟩]
      = [⟨"Food Diary", "", "", "Food"⟩]
    ∧ filterItems "ZeN" "All"
        [⟨"Zen", "", "", "Culture"⟩, ⟨"Food Diary", "", "", "Food"⟩]
      = [⟨"Zen", "", "", "Culture"⟩] := by
  refine ⟨fun query activeCategory items => ?_, by decide, by decide⟩
  unfold filterItems
  exact List.filter_congr fun it _ => itemMatches_eq_specAmended query activeCategory it

/-! ## Server data model (`server.js`, `models/Book.js`, `models/Article.js`) -/

/-- Modelled from the spec: `bcryptjs` is an external dependency of
`server.js`. A hash value records the cost factor, the random salt and
a digest; the digest is modelled as retaining the password so that the
library contract `compare(p, hash(p, cost)) = true` holds. Only that
round-trip property is relied on — one-wayness is outside the model. -/
structure HashStr where
  cost : Nat
  salt : Nat
  digest : String
deriving DecidableEq

/-- Model of `bcrypt.hash(password, 10)`; the salt drawn by the library
is passed explicitly. -/
def bcrypt_hash (password : String) (cost salt : Nat) : HashStr :=
  ⟨cost, salt, password⟩

/-- Model of `bcrypt.compare(password, hash)`. -/
def bcrypt_compare (password : String) (h : HashStr) : Bool :=
  h.digest == password

/-- Modelled from the spec: `models/User.js` is absent from the sources
(only its callers in `server.js` are present). Per the specification a
user record is `{id, name (optional), email (unique, required),
passwordHash (required)}`; a missing name is `""`. -/
structure User where
  id : Nat
  name : String
  email : String
  passwordHash : HashStr
deriving DecidableEq

/-- The session payload both auth handlers store:
`req.session.user = { id, email, name }`. -/
structure Session where
  id : Nat
  email : String
  name : String
deriving DecidableEq

/-- A book record per `bookSchema` in `models/Book.js`; `image` is
optional (modelled `""` when absent), `createdAt` defaults to the
creation time. -/
structure Book where
  id : Nat
  title : String
  description : String
  image : String
  createdAt : Nat
deriving DecidableEq

/-- An article record per `articleSchema` in `models/Article.js`. -/
structure Article where
  id : Nat
  title : String
  tag : String
  author : String
  readTime : String
  excerpt : String
  content : String
  coverImage : String
  isCommunity : Bool
  createdAt : Nat
deriving DecidableEq

/-- Form body of `POST /signup`: `{ name, email, password }`. -/
structure SignupBody where
  name : String
  email : String
  password : String
deriving DecidableEq

/-- Form body of `POST /write`. -/
structure WriteBody where
  title : String
  tag : String
  author : String
  readTime : String
  excerpt : String
  content : String
  coverImage : String
deriving DecidableEq

/-- Form body of `POST /admin/books`: `{ title, description, image }`. -/
structure BookBody where
  title : String
  description : String
  image : String
deriving DecidableEq

/-- Update payload of `POST /admin/books/:id/edit`: mongoose drops
`undefined` fields from `{ title, description, image }`, so each field
is optional here. -/
structure EditBody where
  title : Option String
  description : Option String
  image : Option String
deriving DecidableEq

/-- The response a handler sends: a redirect, an error status with a
body, a rendered page carrying the data passed to `res.render`, or a
JSON list. -/
inductive Response where
  | redirect (path : String)
  | status (code : Nat) (body : String)
  | renderBooks (page : String) (books : List Book)
  | renderArticles (page : String) (articles : List Article)
  | json (articles : List Article)
deriving DecidableEq

/-- Whether a response is one of the error statuses the server emits
(400 or 500); redirects and renders are successes. -/
def Response.isErrorStatus : Response → Bool
  | .status _ _ => true
  | _ => false

/-- The book list carried by a response, for stating listing facts. -/
def Response.booksOf : Response → List Book
  | .renderBooks _ bs => bs
  | _ => []

/-- The article list carried by a response. -/
def Response.articlesOf : Response → List Article
  | .renderArticles _ as => as
  | .json as => as
  | _ => []

/-! ## Persistence operations -/

/-- `User.findOne({ email })`: first record with the given email. -/
def findOne (users : List User) (email : String) : Option User :=
  match users with
  | [] => none
  | u :: rest => if u.email = email then some u else findOne rest email

/-- `Book.findByIdAndUpdate(id, fields)`: set the defined fields on the
record with the given id; a miss changes nothing and raises nothing. -/
def findByIdAndUpdate (books : List Book) (id : Nat) (e : EditBody) : List Book :=
  books.map fun b =>
    if b.id = id then
      { b with
        title := e.title.getD b.title
        description := e.description.getD b.description
        image := e.image.getD b.image }
    else b

/-- `Book.findByIdAndDelete(id)`: remove the record with the given id;
a miss changes nothing and raises nothing. -/
def findByIdAndDelete (books : List Book) (id : Nat) : List Book :=
  match books with
  | [] => []
  | b :: rest => if b.id = id then rest else b :: findByIdAndDelete rest id

/-- `Book.create({ title, description, image })` under `bookSchema`:
`title` and `description` carry `required: true`, and the mongoose
required check fails on a missing value and on an empty string alike,
so creation raises a ValidationError on either. -/
def Book_create (books : List Book) (b : BookBody) (now : Nat) :
    Except String (List Book) :=
  if b.title = "" ∨ b.description = "" then .error "ValidationError"
  else .ok (books ++ [⟨books.length, b.title, b.description, b.image, now⟩])

/-- `collection.find(...).sort({ createdAt: -1 })`: the stored records
in descending `createdAt` order. -/
def sortDescBy {α : Type} (key : α → Nat) (l : List α) : List α :=
  List.insertionSort (fun x y => key y ≤ key x) l

/-! ## Route handlers (`server.js`) -/

/-- `POST /signup`: redirect to `/signin` when email or password is
falsy or the email is already taken; otherwise hash the password,
persist the user, store the session and redirect to `/home`. The fresh
document id is `users.length`; `salt` is the salt `bcrypt.hash` draws. -/
def postSignup (users : List User) (sess : Option Session) (b : SignupBody)
    (salt : Nat) : List User × Option Session × Response :=
  if b.email = "" ∨ b.password = "" then (users, sess, .redirect "/signin")
  else
    match findOne users b.email with
    | some _ => (users, sess, .redirect "/signin")
    | none =>
      let u : User := ⟨users.length, b.name, b.email, bcrypt_hash b.password 10 salt⟩
      (users ++ [u], some ⟨u.id, u.email, u.name⟩, .redirect "/home")

/-- `POST /signin`: redirect to `/signin` when no user has the email or
the hash comparison fails; otherwise store the session and redirect to
`/home`. -/
def postSignin (users : List User) (sess : Option Session)
    (email password : String) : Option Session × Response :=
  match findOne users email with
  | none => (sess, .redirect "/signin")
  | some u =>
    if bcrypt_compare password u.passwordHash then
      (some ⟨u.id, u.email, u.name⟩, .redirect "/home")
    else (sess, .redirect "/signin")

/-- The article `POST /write` builds for `Article.create`: each
defaultable field falls back through `||`, the excerpt to the first 120
characters of the content plus `'...'`, and `isCommunity` to the schema
default `true`. -/
def writeArticle (b : WriteBody) (id now : Nat) : Article :=
  ⟨id, b.title, jsOr b.tag "Article", jsOr b.author "Anonymous",
   jsOr b.readTime "3 min read",
   jsOr b.excerpt (strSlice b.content 120 ++ "..."),
   b.content, b.coverImage, true, now⟩

/-- `POST /write`: a falsy title or content is answered with a 400 and
no write; otherwise the article is persisted and the client is
redirected to `/articles`. -/
def postWrite (articles : List Article) (b : WriteBody) (now : Nat) :
    List Article × Response :=
  if b.title = "" ∨ b.content = "" then
    (articles, .status 400 "Title and content are required.")
  else
    (articles ++ [writeArticle b articles.length now], .redirect "/articles")

/-- `GET /articles`: render the articles page with all articles newest
first. -/
def getArticles (articles : List Article) : Response :=
  .renderArticles "articles" (sortDescBy Article.createdAt articles)

/-- `GET /api/articles`: the same list as JSON. -/
def getApiArticles (articles : List Article) : Response :=
  .json (sortDescBy Article.createdAt articles)

/-- `GET /books`: render the books page with all books newest first. -/
def getBooks (books : List Book) : Response :=
  .renderBooks "books" (sortDescBy Book.createdAt books)

/-- `GET /admin/books`: render the management listing. The handler
receives the request's session but never reads it. -/
def getAdminBooks (books : List Book) (_sess : Option Session) : Response :=
  .renderBooks "admin-books" (sortDescBy Book.createdAt books)

/-- `POST /admin/books`: create a book from the form body and redirect
to `/admin/books`; a creation error is caught and answered with a 500.
The handler receives the request's session but never reads it. -/
def postAdminBooksCreate (books : List Book) (_sess : Option Session)
    (b : BookBody) (now : Nat) : List Book × Response :=
  match Book_create books b now with
  | .ok books2 => (books2, .redirect "/admin/books")
  | .error _ => (books, .status 500 "Error creating book")

/-- `POST /admin/books/:id/edit`: apply `findByIdAndUpdate` and
redirect to `/admin/books`. The handler receives the request's session
but never reads it. -/
def postEditBook (books : List Book) (_sess : Option Session) (id : Nat)
    (e : EditBody) : List Book × Response :=
  (findByIdAndUpdate books id e, .redirect "/admin/books")

/-- `POST /admin/books/:id/delete`: apply `findByIdAndDelete` and
redirect to `/admin/books`. The handler receives the request's session
but never reads it. -/
def postDeleteBook (books : List Book) (_sess : Option Session) (id : Nat) :
    List Book × Response :=
  (findByIdAndDelete books id, .redirect "/admin/books")

/-! ## Lemmas about the persistence operations -/

theorem findOne_eq_none_of (users : List User) (e : String)
    (h : ∀ u ∈ users, u.email ≠ e) : findOne users e = none := by
  induction users with
  | nil => rfl
  | cons u rest ih =>
    unfold findOne
    rw [if_neg (h u (List.mem_cons_self u rest))]
    exact ih fun v hv => h v (List.mem_cons_of_mem u hv)

theorem findOne_append_none (l1 l2 : List User) (e : String)
    (h : findOne l1 e = none) : findOne (l1 ++ l2) e = findOne l2 e := by
  induction l1 with
  | nil => rfl
  | cons u rest ih =>
    by_cases hu : u.email = e
    · simp only [findOne, if_pos hu] at h
      cases h
    · simp only [findOne, if_neg hu] at h
      rw [List.cons_append]
      simp only [findOne, if_neg hu]
      exact ih h

theorem findOne_isSome_of_exists (users : List User) (e : String)
    (h : ∃ u ∈ users, u.email = e) : ∃ u2, findOne users e = some u2 := by
  induction users with
  | nil => obtain ⟨u, hu, _⟩ := h; cases hu
  | cons u rest ih =>
    by_cases hu : u.email = e
    · exact ⟨u, by unfold findOne; rw [if_pos hu]⟩
    · obtain ⟨v, hv, hve⟩ := h
      rcases List.mem_cons.mp hv with rfl | hvr
      · exact absurd hve hu
      · obtain ⟨u2, hu2⟩ := ih ⟨v, hvr, hve⟩
        exact ⟨u2, by unfold findOne; rw [if_neg hu]; exact hu2⟩

theorem findByIdAndUpdate_absent (books : List Book) (id : Nat) (e : EditBody)
    (h : ∀ b ∈ books, b.id ≠ id) : findByIdAndUpdate books id e = books := by
  induction books with
  | nil => rfl
  | cons b rest ih =>
    unfold findByIdAndUpdate
    rw [List.map_cons, if_neg (h b (List.mem_cons_self b rest))]
    have := ih fun v hv => h v (List.mem_cons_of_mem b hv)
    unfold findByIdAndUpdate at this
    rw [this]

theorem findByIdAndDelete_absent (books : List Book) (id : Nat)
    (h : ∀ b ∈ books, b.id ≠ id) : findByIdAndDelete books id = books := by
  induction books with
  | nil => rfl
  | cons b rest ih =>
    unfold findByIdAndDelete
    rw [if_neg (h b (List.mem_cons_self b rest))]
    rw [ih fun v hv => h v (List.mem_cons_of_mem b hv)]

theorem chain_sortDescBy {α : Type} (key : α → Nat) (l : List α) :
    List.Chain' (fun x y => key y ≤ key x) (sortDescBy key l) := by
  haveI : IsTotal α (fun x y => key y ≤ key x) := ⟨fun a b => Nat.le_total (key b) (key a)⟩
  haveI : IsTrans α (fun x y => key y ≤ key x) := ⟨fun _ _ _ h1 h2 => Nat.le_trans h2 h1⟩
  exact List.Pairwise.chain' (List.sorted_insertionSort _ l)

/-! ## Claim theorems -/

/-- Claim C1: a signup with nonempty email and password and a
previously unused email persists a user whose password hash is the
salted bcrypt hash of the password, establishes the session
`{id, email, name}` and redirects to `/home`; a subsequent signin with
the same email and password finds that user, passes the hash
comparison, establishes the same-shaped session and redirects to
`/home`. -/
theorem signup_then_signin_succeeds (users : List User) (sess : Option Session)
    (b : SignupBody) (salt : Nat)
    (hE : b.email ≠ "") (hP : b.password ≠ "")
    (hNew : ∀ u ∈ users, u.email ≠ b.email) :
    postSignup users sess b salt =
      (users ++ [⟨users.length, b.name, b.email, bcrypt_hash b.password 10 salt⟩],
       some ⟨users.length, b.email, b.name⟩, Response.redirect "/home")
    ∧ postSignin
        (users ++ [⟨users.length, b.name, b.email, bcrypt_hash b.password 10 salt⟩])
        none b.email b.password
      = (some ⟨users.length, b.email, b.name⟩, Response.redirect "/home") := by
  have hv : ¬(b.email = "" ∨ b.password = "") := by
    rintro (h | h)
    exacts [hE h, hP h]
  have hf : findOne users b.email = none := findOne_eq_none_of users b.email hNew
  constructor
  · simp [postSignup, hv, hf]
  · have h1 : findOne
        (users ++ [⟨users.length, b.name, b.email, bcrypt_hash b.password 10 salt⟩])
        b.email
        = some ⟨users.length, b.name, b.email, bcrypt_hash b.password 10 salt⟩ := by
      rw [findOne_append_none users _ b.email hf]
      simp [findOne]
    simp only [postSignin]
    rw [h1]
    simp [bcrypt_compare, bcrypt_hash]

/-- Witness for C1 at a concrete signup. -/
theorem signup_then_signin_succeeds_w :
    postSignup [] none ⟨"Alice", "alice@example.com", "pw1"⟩ 7 =
      ([⟨0, "Alice", "alice@example.com", bcrypt_hash "pw1" 10 7⟩],
       some ⟨0, "alice@example.com", "Alice"⟩, Response.redirect "/home")
    ∧ postSignin [⟨0, "Alice", "alice@example.com", bcrypt_hash "pw1" 10 7⟩]
        none "alice@example.com" "pw1"
      = (some ⟨0, "alice@example.com", "Alice"⟩, Response.redirect "/home") :=
  signup_then_signin_succeeds [] none ⟨"Alice", "alice@example.com", "pw1"⟩ 7
    (by decide) (by decide) (by decide)

/-- Claim C2: a signup whose email equals the email of a persisted user
leaves the user collection unchanged and redirects to `/signin` (this
also covers the degenerate bodies caught by the validation guard, which
behave identically). -/
theorem signup_duplicate_email_noop (users : List User) (sess : Option Session)
    (b : SignupBody) (salt : Nat)
    (hEx : ∃ u ∈ users, u.email = b.email) :
    (postSignup users sess b salt).1 = users
    ∧ (postSignup users sess b salt).2.2 = Response.redirect "/signin" := by
  by_cases hv : b.email = "" ∨ b.password = ""
  · simp [postSignup, hv]
  · obtain ⟨u2, hu2⟩ := findOne_isSome_of_exists users b.email hEx
    simp [postSignup, hv, hu2]

/-- Witness for C2: re-registering an existing email. -/
theorem signup_duplicate_email_noop_w :
    (postSignup [⟨0, "Bob", "bob@example.com", bcrypt_hash "x" 10 1⟩] none
        ⟨"Eve", "bob@example.com", "y"⟩ 2).1
      = [⟨0, "Bob", "bob@example.com", bcrypt_hash "x" 10 1⟩]
    ∧ (postSignup [⟨0, "Bob", "bob@example.com", bcrypt_hash "x" 10 1⟩] none
        ⟨"Eve", "bob@example.com", "y"⟩ 2).2.2 = Response.redirect "/signin" :=
  signup_duplicate_email_noop [⟨0, "Bob", "bob@example.com", bcrypt_hash "x" 10 1⟩]
    none ⟨"Eve", "bob@example.com", "y"⟩ 2 (by decide)

/-- Claim C3, counterexample: editing an absent book id does not fail
with NotFound — on the empty collection and id 1 the handler leaves the
collection unchanged and answers with the success redirect to
`/admin/books`, not with any error status. -/
theorem edit_absent_id_not_notfound_cex :
    postEditBook [] none 1 ⟨some "T2", some "D2", none⟩
      = ([], Response.redirect "/admin/books")
    ∧ Response.isErrorStatus
        (postEditBook [] none 1 ⟨some "T2", some "D2", none⟩).2 = false :=
  ⟨rfl, rfl⟩

/-- Claim C3, amended: a book update on an id absent from the
collection is a silent no-op — the collection is unchanged and the
response is the redirect to `/admin/books`; no NotFound error is
signalled. -/
theorem edit_absent_id_silent_noop (books : List Book) (sess : Option Session)
    (id : Nat) (e : EditBody) (h : ∀ b ∈ books, b.id ≠ id) :
    postEditBook books sess id e = (books, Response.redirect "/admin/books") := by
  unfold postEditBook
  rw [findByIdAndUpdate_absent books id e h]

/-- Witness for the amended C3 on a nonempty collection. -/
theorem edit_absent_id_silent_noop_w :
    postEditBook [⟨0, "T", "D", "", 5⟩] none 3 ⟨some "T2", none, none⟩
      = ([⟨0, "T", "D", "", 5⟩], Response.redirect "/admin/books") :=
  edit_absent_id_silent_noop [⟨0, "T", "D", "", 5⟩] none 3
    ⟨some "T2", none, none⟩ (by decide)

/-- Claim C4: an article submission with missing or empty title or
content creates no record and is answered with status 400. -/
theorem write_missing_field_400 (articles : List Article) (b : WriteBody)
    (now : Nat) (h : b.title = "" ∨ b.content = "") :
    postWrite articles b now
      = (articles, Response.status 400 "Title and content are required.") := by
  unfold postWrite
  rw [if_pos h]

/-- Witness for C4: a submission with an empty title. -/
theorem write_missing_field_400_w :
    postWrite [] ⟨"", "", "", "", "", "some body", ""⟩ 9
      = ([], Response.status 400 "Title and content are required.") :=
  write_missing_field_400 [] ⟨"", "", "", "", "", "some body", ""⟩ 9 (by decide)

/-- Claim C5: every listing route returns the stored records in
non-increasing `createdAt` order — each adjacent pair of the returned
list satisfies `later.createdAt ≤ earlier.createdAt`. -/
theorem listings_sorted_desc (books : List Book) (articles : List Article)
    (sess : Option Session) :
    List.Chain' (fun x y => y.createdAt ≤ x.createdAt)
      (Response.booksOf (getBooks books))
    ∧ List.Chain' (fun x y => y.createdAt ≤ x.createdAt)
      (Response.booksOf (getAdminBooks books sess))
    ∧ List.Chain' (fun x y => y.createdAt ≤ x.createdAt)
      (Response.articlesOf (getArticles articles))
    ∧ List.Chain' (fun x y => y.createdAt ≤ x.createdAt)
      (Response.articlesOf (getApiArticles articles)) :=
  ⟨chain_sortDescBy Book.createdAt books, chain_sortDescBy Book.createdAt books,
   chain_sortDescBy Article.createdAt articles,
   chain_sortDescBy Article.createdAt articles⟩

/-- Claim C7: a valid article submission with no excerpt supplied
persists the article, and its excerpt is the first 120 characters of
the content followed by `'...'`. -/
theorem write_default_excerpt (articles : List Article) (b : WriteBody)
    (now : Nat) (hT : b.title ≠ "") (hC : b.content ≠ "") (hX : b.excerpt = "") :
    (postWrite articles b now).1
      = articles ++ [writeArticle b articles.length now]
    ∧ (writeArticle b articles.length now).excerpt
      = strSlice b.content 120 ++ "..." := by
  have hv : ¬(b.title = "" ∨ b.content = "") := by
    rintro (h | h)
    exacts [hT h, hC h]
  constructor
  · unfold postWrite
    rw [if_neg hv]
  · simp [writeArticle, jsOr, hX]

/-- Witness for C7 on a short content string. -/
theorem write_default_excerpt_w :
    (postWrite [] ⟨"T", "", "", "", "", "hello world", ""⟩ 4).1
      = [] ++ [writeArticle ⟨"T", "", "", "", "", "hello world", ""⟩ 0 4]
    ∧ (writeArticle ⟨"T", "", "", "", "", "hello world", ""⟩ 0 4).excerpt
      = strSlice "hello world" 120 ++ "..." :=
  write_default_excerpt [] ⟨"T", "", "", "", "", "hello world", ""⟩ 4
    (by decide) (by decide) (by decide)

/-- Claim C8: deleting an absent book id leaves the collection
unchanged and still redirects to `/admin/books`. -/
theorem delete_absent_id_noop (books : List Book) (sess : Option Session)
    (id : Nat) (h : ∀ b ∈ books, b.id ≠ id) :
    postDeleteBook books sess id = (books, Response.redirect "/admin/books") := by
  unfold postDeleteBook
  rw [findByIdAndDelete_absent books id h]

/-- Witness for C8 on a nonempty collection. -/
theorem delete_absent_id_noop_w :
    postDeleteBook [⟨0, "T", "D", "", 5⟩, ⟨1, "U", "E", "", 6⟩] none 9
      = ([⟨0, "T", "D", "", 5⟩, ⟨1, "U", "E", "", 6⟩],
         Response.redirect "/admin/books") :=
  delete_absent_id_noop [⟨0, "T", "D", "", 5⟩, ⟨1, "U", "E", "", 6⟩] none 9
    (by decide)

/-- Claim C9: the four admin book routes read nothing from the session
— two requests differing only in session state produce the same
response and the same collection change. -/
theorem admin_routes_ignore_session (books : List Book)
    (s1 s2 : Option Session) (cb : BookBody) (e : EditBody) (id now : Nat) :
    getAdminBooks books s1 = getAdminBooks books s2
    ∧ postAdminBooksCreate books s1 cb now = postAdminBooksCreate books s2 cb now
    ∧ postEditBook books s1 id e = postEditBook books s2 id e
    ∧ postDeleteBook books s1 id = postDeleteBook books s2 id :=
  ⟨rfl, rfl, rfl, rfl⟩

/-- Claim C10: a book creation with missing or empty title or
description performs no input validation in the handler; the
schema-level required check rejects the write, the catch branch
answers 500 `'Error creating book'`, and the collection is unchanged. -/
theorem create_book_missing_field_500 (books : List Book)
    (sess : Option Session) (b : BookBody) (now : Nat)
    (h : b.title = "" ∨ b.description = "") :
    postAdminBooksCreate books sess b now
      = (books, Response.status 500 "Error creating book") := by
  unfold postAdminBooksCreate Book_create
  rw [if_pos h]

/-- Witness for C10: a creation with an empty description. -/
theorem create_book_missing_field_500_w :
    postAdminBooksCreate [] none ⟨"T", "", "img"⟩ 2
      = ([], Response.status 500 "Error creating book") :=
  create_book_missing_field_500 [] none ⟨"T", "", "img"⟩ 2 (by decide)

end UnreadArchive
